import Mathlib

/-!
Verification of CalClick (src/main.py): a shallow embedding of the weekly
location planner, the time jitter generator, the portal session state machine
(login, location select with verify-and-retry, start/stop toggles, cleanup)
and the daily trigger scheduler, with theorems settling the claims of the
specification.
-/

namespace CalClick

/-- Work-location tag: the two values the planner and the location dropdown use. -/
inductive Loc where
  | office
  | home
deriving DecidableEq, Repr

/-- `generate_weekly_schedule` (src/main.py lines 65-82), as a function of the
result of `random.shuffle` on `days = [0, 1, 2, 3, 4, 5, 6]` (the state of the
random source is captured by the shuffled list). The first 3 shuffled days are
inserted into the dict mapped to office, the remaining days (`days[3:]`) mapped
to home, in that insertion order. The Python dict is modelled as the
insertion-ordered association list. -/
def generate_weekly_schedule (shuffled : List Nat) : List (Nat × Loc) :=
  (shuffled.take 3).map (fun d => (d, Loc.office)) ++
    (shuffled.drop 3).map (fun d => (d, Loc.home))

/-- Number of entries of a plan carrying a given location value. -/
def countLoc (plan : List (Nat × Loc)) (l : Loc) : Nat :=
  plan.countP (fun e => decide (e.2 = l))

/-- The weekday keys of a plan, in insertion order. -/
def planKeys (plan : List (Nat × Loc)) : List Nat :=
  plan.map (fun e => e.1)

/-- `calculate_random_time` (src/main.py lines 447-468) as seconds since
midnight of the "HH:MM:SS" string it returns. The random source yields
`offset = random.randint(-variance, variance)` (minutes) and
`secs = random.randint(0, 59)`; the function builds
`base_time = now.replace(hour=base_hour, minute=base_minute, second=secs)` and
adds `timedelta(minutes=offset)`; `strftime` keeps only the time of day, hence
the reduction modulo 86400 seconds. -/
def calculate_random_time (base_hour base_minute : Nat) (offset : Int) (secs : Nat) : Nat :=
  (((base_hour * 3600 + base_minute * 60 + secs : Int) + offset * 60) % 86400).toNat

/-- Absolute distance between two times of day given in seconds since midnight. -/
def distFrom (t base : Nat) : Nat :=
  if base ≤ t then t - base else base - t

/-- `a.startsWith b` on character lists (`b` begins with `a`). -/
def startsL : List Char → List Char → Bool
  | [], _ => true
  | _ :: _, [] => false
  | a :: as, b :: bs => a == b && startsL as bs

/-- The Python substring test `needle in hay`, on character lists. -/
def containsL (needle : List Char) : List Char → Bool
  | [] => startsL needle []
  | c :: rest => startsL needle (c :: rest) || containsL needle rest

/-- The Python method `str.strip()` on a character list: drop leading and
trailing whitespace. -/
def pyStrip (s : List Char) : List Char :=
  ((s.dropWhile Char.isWhitespace).reverse.dropWhile Char.isWhitespace).reverse

/-- `get_current_location` (src/main.py lines 161-175) as a function of the
text displayed by the selected-value element: `text = elem.text.strip().lower()`;
return office when the text contains the substring `office` or the substring
`in the office`, else home when it contains `home`, else `None`. -/
def get_current_location (label : String) : Option Loc :=
  let text := (pyStrip label.data).map Char.toLower
  if containsL ("office").data text || containsL ("in the office").data text then
    some Loc.office
  else if containsL ("home").data text then
    some Loc.home
  else
    none

/-- Day specification of a `schedule` library registration: one fixed weekday
(`schedule.every().monday` ... `schedule.every().friday`) or every day
(`schedule.every().day`). -/
inductive DaySpec where
  | monday
  | tuesday
  | wednesday
  | thursday
  | friday
  | everyday
deriving DecidableEq, Repr

/-- The job body passed to `.do(...)`: the two routines, the weekly-plan
regeneration lambda, and the midnight self-reschedule lambda. -/
inductive Task where
  | morning
  | evening
  | regen
  | reschedule
deriving DecidableEq, Repr

/-- A registered trigger: day specification, time of day in minutes (the code
truncates the "HH:MM:SS" string to "HH:MM" before registering), and the job
body. -/
structure Job where
  spec : DaySpec
  time : Nat
  task : Task
deriving DecidableEq, Repr

/-- One observable step of `schedule_tasks` (src/main.py lines 471-508): the
`schedule.clear()` call, a trigger registration, or a direct synchronous call
of one of the two routines (lines 501-502). -/
inductive SchedEffect where
  | clear
  | register (j : Job)
  | runMorning
  | runEvening
deriving DecidableEq, Repr

/-- The sequence of effects performed by one call of `schedule_tasks`
(src/main.py lines 471-508), in source order, as a function of the two
`calculate_random_time` results `mFull` and `eFull` (seconds since midnight;
the code keeps only the HH:MM part, i.e. `mFull / 60` minutes):
`schedule.clear()`; five weekday morning registrations; five weekday evening
registrations; the direct calls `automation.morning_routine()` and
`automation.evening_routine()`; the Monday-00:01 regeneration registration;
the every-day-00:00 self-reschedule registration. -/
def scheduleTasksTrace (mFull eFull : Nat) : List SchedEffect :=
  [SchedEffect.clear,
   SchedEffect.register ⟨DaySpec.monday, mFull / 60, Task.morning⟩,
   SchedEffect.register ⟨DaySpec.tuesday, mFull / 60, Task.morning⟩,
   SchedEffect.register ⟨DaySpec.wednesday, mFull / 60, Task.morning⟩,
   SchedEffect.register ⟨DaySpec.thursday, mFull / 60, Task.morning⟩,
   SchedEffect.register ⟨DaySpec.friday, mFull / 60, Task.morning⟩,
   SchedEffect.register ⟨DaySpec.monday, eFull / 60, Task.evening⟩,
   SchedEffect.register ⟨DaySpec.tuesday, eFull / 60, Task.evening⟩,
   SchedEffect.register ⟨DaySpec.wednesday, eFull / 60, Task.evening⟩,
   SchedEffect.register ⟨DaySpec.thursday, eFull / 60, Task.evening⟩,
   SchedEffect.register ⟨DaySpec.friday, eFull / 60, Task.evening⟩,
   SchedEffect.runMorning,
   SchedEffect.runEvening,
   SchedEffect.register ⟨DaySpec.monday, 1, Task.regen⟩,
   SchedEffect.register ⟨DaySpec.everyday, 0, Task.reschedule⟩]

/-- Effect of one `SchedEffect` on the registry of jobs held by the `schedule`
library:
`clear` empties it, a registration appends, the direct routine calls do not
touch the registry. -/
def applyEffect (acc : List Job) : SchedEffect → List Job
  | SchedEffect.clear => []
  | SchedEffect.register j => acc ++ [j]
  | SchedEffect.runMorning => acc
  | SchedEffect.runEvening => acc

/-- Run a sequence of scheduler effects over a registry. -/
def applyEffects (acc : List Job) (l : List SchedEffect) : List Job :=
  l.foldl applyEffect acc

/-- `schedule_tasks` as a registry transformer: the registry after one call,
starting from the registry `prev` left by earlier calls. -/
def schedule_tasks (prev : List Job) (mFull eFull : Nat) : List Job :=
  applyEffects prev (scheduleTasksTrace mFull eFull)

/-- Count the registered triggers with a given day specification and job body. -/
def countJobs (r : List Job) (d : DaySpec) (t : Task) : Nat :=
  r.countP (fun j => decide (j.spec = d) && decide (j.task = t))

/-- Predicate: the effect is the direct `morning_routine()` call. -/
def isRunMorning : SchedEffect → Bool
  | SchedEffect.runMorning => true
  | _ => false

/-- Predicate: the effect is the direct `evening_routine()` call. -/
def isRunEvening : SchedEffect → Bool
  | SchedEffect.runEvening => true
  | _ => false

/-- Predicate: the effect registers a weekday morning or evening trigger. -/
def isWeekdayReg : SchedEffect → Bool
  | SchedEffect.register j =>
      match j.task with
      | Task.morning => true
      | Task.evening => true
      | _ => false
  | _ => false

/-- Predicate: the effect registers the midnight self-reschedule trigger. -/
def isRescheduleReg : SchedEffect → Bool
  | SchedEffect.register j =>
      match j.task with
      | Task.reschedule => true
      | _ => false
  | _ => false

/-- Predicate on registered jobs: weekly-plan regeneration body. -/
def isRegenJob (j : Job) : Bool :=
  decide (j.task = Task.regen)

/-- Predicate on registered jobs: midnight self-reschedule body. -/
def isRescheduleJob (j : Job) : Bool :=
  decide (j.task = Task.reschedule)

/-- Observable event of one routine execution (src/main.py lines 355-438):
a stage being attempted, the `except Exception` handler firing, its diagnostic
steps, entry into the `finally` block, and `self.driver.quit()`. -/
inductive Ev where
  | setupTry
  | loginTry
  | selectTry
  | startTry
  | stopTry
  | caught
  | urlLogged
  | shotSaved
  | shotFailed
  | cleanupEntered
  | quitDriver
deriving DecidableEq, Repr

/-- Outcome environment of one `morning_routine` execution: whether
`setup_driver` completes (it has no try/except and raises on failure), and the
boolean results of `login`, `select_location` and `click_start_work` (each of
those catches its own exceptions and returns False). `shotOk` is whether
`save_screenshot` succeeds in the handler. -/
structure MorningEnv where
  setupOk : Bool
  loginOk : Bool
  selectOk : Bool
  startOk : Bool
  shotOk : Bool
deriving DecidableEq, Repr

/-- Outcome environment of one `evening_routine` execution. -/
structure EveningEnv where
  setupOk : Bool
  loginOk : Bool
  stopOk : Bool
  shotOk : Bool
deriving DecidableEq, Repr

/-- The `try` body of `morning_routine` (src/main.py lines 361-385): events in
order, paired with whether an exception was raised (a `setup_driver` error, or
the `raise Exception(...)` after a stage returned False). A stage returning
False raises before any later stage runs. -/
def morningBody (e : MorningEnv) : List Ev × Bool :=
  if e.setupOk = false then ([Ev.setupTry], true)
  else if e.loginOk = false then ([Ev.setupTry, Ev.loginTry], true)
  else if e.selectOk = false then ([Ev.setupTry, Ev.loginTry, Ev.selectTry], true)
  else if e.startOk = false then
    ([Ev.setupTry, Ev.loginTry, Ev.selectTry, Ev.startTry], true)
  else ([Ev.setupTry, Ev.loginTry, Ev.selectTry, Ev.startTry], false)

/-- The `try` body of `evening_routine` (src/main.py lines 408-423). -/
def eveningBody (e : EveningEnv) : List Ev × Bool :=
  if e.setupOk = false then ([Ev.setupTry], true)
  else if e.loginOk = false then ([Ev.setupTry, Ev.loginTry], true)
  else if e.stopOk = false then ([Ev.setupTry, Ev.loginTry, Ev.stopTry], true)
  else ([Ev.setupTry, Ev.loginTry, Ev.stopTry], false)

/-- The `except Exception` handler shared by both routines (log the error; if
`self.driver` is set, log the current URL and attempt a screenshot, whose own
failure is caught by the inner try/except). -/
def exceptBlock (driverNow shotOk : Bool) : List Ev :=
  Ev.caught ::
    (if driverNow then
      [Ev.urlLogged, if shotOk then Ev.shotSaved else Ev.shotFailed]
    else [])

/-- The `finally` block shared by both routines: always entered; quits the
driver when `self.driver` is set. -/
def finallyBlock (driverNow : Bool) : List Ev :=
  Ev.cleanupEntered :: (if driverNow then [Ev.quitDriver] else [])

/-- `morning_routine` (src/main.py lines 355-400) as an event trace paired with
whether an exception escaped to the caller. `driverBefore` records whether
`self.driver` already held a handle from an earlier routine run (if
`setup_driver` raises before assigning, `self.driver` keeps its old value).
The handler catches every `Exception` and raises nothing after it, so the
escape flag is `false` on every path. -/
def morning_routine (driverBefore : Bool) (e : MorningEnv) : List Ev × Bool :=
  let body := morningBody e
  let driverNow := e.setupOk || driverBefore
  (body.1 ++ (if body.2 then exceptBlock driverNow e.shotOk else []) ++
    finallyBlock driverNow, false)

/-- `evening_routine` (src/main.py lines 402-438), same shape as
`morning_routine` with the stop-work stage in place of location selection and
start-work. -/
def evening_routine (driverBefore : Bool) (e : EveningEnv) : List Ev × Bool :=
  let body := eveningBody e
  let driverNow := e.setupOk || driverBefore
  (body.1 ++ (if body.2 then exceptBlock driverNow e.shotOk else []) ++
    finallyBlock driverNow, false)

/-- Predicate: the event is a `driver.quit()` call. -/
def isQuit : Ev → Bool
  | Ev.quitDriver => true
  | _ => false

/-- The verify-and-retry loop of `select_location` (src/main.py lines 325-349),
by recursion on the remaining attempts (`while attempts < 3`). At attempt
number `done` (0-based): wait for the option element (`findOk done`; a timeout
returns False with `done` attempts made); click it; read the displayed label
(`reads done`); on a match return True; otherwise increment `attempts` and
re-click the dropdown (`reopenOk done`; a timeout there also returns False). -/
def selectLocAux (target : Loc) (findOk reopenOk : Nat → Bool)
    (reads : Nat → Option Loc) : Nat → Nat → Bool × Nat
  | 0, done => (false, done)
  | Nat.succ r, done =>
      if findOk done = true then
        if reads done = some target then (true, done + 1)
        else if reopenOk done = true then
          selectLocAux target findOk reopenOk reads r (done + 1)
        else (false, done + 1)
      else (false, done)

/-- `select_location` (src/main.py lines 292-353) as a function of the UI
oracle: `dropdownOk` is whether the initial dropdown click succeeds, then the
bounded loop of at most 3 option-click-and-verify attempts runs. Returns
(success, number of option-click-and-verify attempts performed). -/
def select_location (target : Loc) (dropdownOk : Bool) (findOk reopenOk : Nat → Bool)
    (reads : Nat → Option Loc) : Bool × Nat :=
  if dropdownOk = true then selectLocAux target findOk reopenOk reads 3 0
  else (false, 0)

/-- A UI oracle whose interactions all succeed. -/
def allOk : Nat → Bool := fun _ => true

/-- State of an action control on the page: located on the page
(`present`) and interactable (`interactable`). -/
structure ElemState where
  present : Bool
  interactable : Bool
deriving DecidableEq, Repr

/-- The two Selenium wait conditions the toggle functions use:
`EC.presence_of_element_located` and `EC.element_to_be_clickable`. -/
inductive WaitCond where
  | presence
  | clickable
deriving DecidableEq, Repr

/-- Whether a wait condition is met by an element state within the timeout:
presence needs the element located; clickable needs it located and
interactable. -/
def condMet : WaitCond → ElemState → Bool
  | WaitCond.presence, s => s.present
  | WaitCond.clickable, s => s.present && s.interactable

/-- The wait condition `click_start_work` uses on the start control
(src/main.py line 242: `EC.element_to_be_clickable`). -/
def startWaitCond : WaitCond := WaitCond.clickable

/-- The wait condition `click_stop_work` uses on the stop control
(src/main.py line 278: `EC.presence_of_element_located`). -/
def stopWaitCond : WaitCond := WaitCond.presence

/-- Result of `click_start_work`: the returned boolean, whether the control
was clicked, and whether the location-restore `select_location` call was
issued. -/
structure StartResult where
  success : Bool
  clicked : Bool
  reapplied : Bool
deriving DecidableEq, Repr

/-- `click_start_work` (src/main.py lines 227-263): read the location before
clicking (`prevLoc`), wait for the start control under `startWaitCond` (a
timeout returns False without clicking), click, re-read the location
(`postLoc`), and when a previous location was known and changed, re-apply it
with one `select_location` call; then return True. -/
def click_start_work (s : ElemState) (prevLoc postLoc : Option Loc) : StartResult :=
  if condMet startWaitCond s = true then
    ⟨true, true, prevLoc.isSome && decide (postLoc ≠ prevLoc)⟩
  else ⟨false, false, false⟩

/-- `click_stop_work` (src/main.py lines 265-290): wait for the stop control
under `stopWaitCond` (a timeout returns False without clicking), click, return
True. Result: (returned boolean, whether the control was clicked). -/
def click_stop_work (s : ElemState) : Bool × Bool :=
  if condMet stopWaitCond s = true then (true, true) else (false, false)

/-- The controller state the claims touch: its stored weekly plan
(`self.weekly_schedule`). -/
structure Automation where
  weekly_schedule : List (Nat × Loc)
deriving DecidableEq, Repr

/-- `WorkPortalAutomation.__init__` (src/main.py lines 50-63), restricted to
the plan field: `self.weekly_schedule = self.generate_weekly_schedule()`, as a
function of the construction-time shuffle. -/
def initAutomation (shuffled : List Nat) : Automation :=
  ⟨generate_weekly_schedule shuffled⟩

/-- The Monday-00:01 job body registered at src/main.py line 505:
`lambda: automation.generate_weekly_schedule()`. The method computes, logs and
returns a fresh plan but never writes `self.weekly_schedule`, and the lambda
discards the returned value, so the controller state comes back unchanged;
the second component is the freshly generated (discarded) plan. -/
def run_regen_job (a : Automation) (shuffled : List Nat) :
    Automation × List (Nat × Loc) :=
  (a, generate_weekly_schedule shuffled)

/-- The registered weekly-regeneration job never matches this check if it
leaves the plan in place: helper equation exposing the nested ifs of the
verify-and-retry loop when every UI interaction succeeds. -/
theorem select_location_allOk_eval (t : Loc) (reads : Nat → Option Loc) :
    select_location t true allOk allOk reads =
      if reads 0 = some t then (true, 1)
      else if reads 1 = some t then (true, 2)
      else if reads 2 = some t then (true, 3)
      else (false, 3) := rfl

/-- Helper: `calculate_random_time` without the wrap-around, as an integer,
when the jittered value stays inside the day. -/
theorem calculate_random_time_eq (bh bm : Nat) (off : Int) (s : Nat)
    (hge : 0 ≤ (bh * 3600 + bm * 60 + s : Int) + off * 60)
    (hlt : (bh * 3600 + bm * 60 + s : Int) + off * 60 < 86400) :
    (calculate_random_time bh bm off s : Int) =
      (bh * 3600 + bm * 60 + s : Int) + off * 60 := by
  unfold calculate_random_time
  rw [Int.emod_eq_of_lt hge hlt, Int.toNat_of_nonneg hge]

/-- Claim C1: the claim says that executing the registered Monday-00:01
regeneration job replaces the stored weekly plan of the controller with the
freshly generated plan. The code evaluation shows the opposite: the job body
discards the value returned by `generate_weekly_schedule`, so the stored plan
stays the construction-time plan even though the freshly generated plan
differs from it. -/
theorem regen_job_leaves_stored_plan_unchanged :
    (run_regen_job (initAutomation [0, 1, 2, 3, 4, 5, 6]) [6, 5, 4, 3, 2, 1, 0]).1.weekly_schedule
        = (initAutomation [0, 1, 2, 3, 4, 5, 6]).weekly_schedule
    ∧ (run_regen_job (initAutomation [0, 1, 2, 3, 4, 5, 6]) [6, 5, 4, 3, 2, 1, 0]).2
        ≠ (initAutomation [0, 1, 2, 3, 4, 5, 6]).weekly_schedule := by
  decide

/-- Claim C2: the claim says `get_current_location` classifies the displayed
label "Home office" as home, so that the verification step of
`select_location Loc.home` succeeds. The code evaluation shows the opposite:
because the office substring test runs first, "Home office" is classified as
office, and a home selection whose verification reads all display
"Home office" fails after the 3 attempts. (The office label "In the office"
is classified as office as claimed.) -/
theorem home_office_label_classified_as_office :
    get_current_location ("Home office") = some Loc.office
    ∧ get_current_location ("In the office") = some Loc.office
    ∧ some Loc.office ≠ some Loc.home
    ∧ select_location Loc.home true allOk allOk
        (fun _ => get_current_location ("Home office")) = (false, 3) := by
  decide

/-- Claim C3: every call of `schedule_tasks` synchronously executes
`morning_routine` exactly once and `evening_routine` exactly once, after the
ten weekday trigger registrations (which occupy the first positions of the
trace after `clear`) and before the weekly-regeneration and midnight
self-reschedule registrations; the midnight trigger body is the self-reschedule
task, so each midnight firing replays this same trace. -/
theorem schedule_tasks_runs_routines_inline (mFull eFull : Nat) :
    (scheduleTasksTrace mFull eFull).countP isRunMorning = 1
    ∧ (scheduleTasksTrace mFull eFull).countP isRunEvening = 1
    ∧ (scheduleTasksTrace mFull eFull).findIdx isRunMorning = 11
    ∧ (scheduleTasksTrace mFull eFull).findIdx isRunEvening = 12
    ∧ ((scheduleTasksTrace mFull eFull).take 11).countP isWeekdayReg = 10
    ∧ (scheduleTasksTrace mFull eFull).drop 13 =
        [SchedEffect.register ⟨DaySpec.monday, 1, Task.regen⟩,
         SchedEffect.register ⟨DaySpec.everyday, 0, Task.reschedule⟩] :=
  ⟨rfl, rfl, rfl, rfl, rfl, rfl⟩

/-- Claim C4: in both routines, a failing stage short-circuits the remaining
stages (login is attempted iff driver setup completed; location selection iff
login also succeeded; the start click iff location selection also succeeded;
the stop click iff login succeeded), no exception escapes to the run loop
(the escape flag is false on every path), and the `finally` cleanup step is
always reached. -/
theorem routine_failures_short_circuit_and_are_caught
    (db : Bool) (e : MorningEnv) (f : EveningEnv) :
    ((morning_routine db e).2 = false
      ∧ Ev.cleanupEntered ∈ (morning_routine db e).1
      ∧ decide (Ev.loginTry ∈ (morning_routine db e).1) = e.setupOk
      ∧ decide (Ev.selectTry ∈ (morning_routine db e).1) = (e.setupOk && e.loginOk)
      ∧ decide (Ev.startTry ∈ (morning_routine db e).1)
          = (e.setupOk && e.loginOk && e.selectOk))
    ∧ ((evening_routine db f).2 = false
      ∧ Ev.cleanupEntered ∈ (evening_routine db f).1
      ∧ decide (Ev.loginTry ∈ (evening_routine db f).1) = f.setupOk
      ∧ decide (Ev.stopTry ∈ (evening_routine db f).1) = (f.setupOk && f.loginOk)) := by
  constructor
  · obtain ⟨a, b, c, d, s⟩ := e
    cases db <;> cases a <;> cases b <;> cases c <;> cases d <;> cases s <;> decide
  · obtain ⟨a, b, c, s⟩ := f
    cases db <;> cases a <;> cases b <;> cases c <;> cases s <;> decide

/-- Claim C5: the claim says the generated plan covers exactly the 5 business
weekdays with a 3 office / 2 home split. The code evaluation at the identity
shuffle shows the plan instead covers all 7 days 0..6 with 3 office and 4 home
entries, including home entries for the weekend keys 5 and 6 (the docstring
"3 days office, 2 days home" and the comment "Monday to Friday" in the source
notwithstanding). -/
theorem weekly_schedule_covers_seven_days :
    (generate_weekly_schedule [0, 1, 2, 3, 4, 5, 6]).length = 7
    ∧ planKeys (generate_weekly_schedule [0, 1, 2, 3, 4, 5, 6]) = [0, 1, 2, 3, 4, 5, 6]
    ∧ countLoc (generate_weekly_schedule [0, 1, 2, 3, 4, 5, 6]) Loc.office = 3
    ∧ countLoc (generate_weekly_schedule [0, 1, 2, 3, 4, 5, 6]) Loc.home = 4
    ∧ (5, Loc.home) ∈ generate_weekly_schedule [0, 1, 2, 3, 4, 5, 6]
    ∧ (6, Loc.home) ∈ generate_weekly_schedule [0, 1, 2, 3, 4, 5, 6] := by
  decide

/-- Claim C6 counterexample: with offset +30 minutes and seconds component 59,
`calculate_random_time 8 0` returns 08:30:59, which is 1859 seconds from
08:00:00 — more than the claimed 30-minute (1800-second) bound. -/
theorem random_time_exceeds_thirty_minutes :
    calculate_random_time 8 0 30 59 = 30659
    ∧ distFrom (calculate_random_time 8 0 30 59) 28800 = 1859
    ∧ ¬ distFrom (calculate_random_time 8 0 30 59) 28800 ≤ 1800 := by
  decide

/-- Claim C6 as amended: for every state of the random source (minute offset
in [-30, 30] and seconds in [0, 59]), the time returned by
`calculate_random_time 8 0` differs from 08:00:00 (28800 s) by at most 30
minutes and 59 seconds (1859 s). -/
theorem random_time_within_amended_bound (off : Int) (s : Nat)
    (h1 : -30 ≤ off) (h2 : off ≤ 30) (h3 : s ≤ 59) :
    distFrom (calculate_random_time 8 0 off s) 28800 ≤ 1859 := by
  have h := calculate_random_time_eq 8 0 off s (by push_cast; omega) (by push_cast; omega)
  unfold distFrom
  split <;> omega

/-- Witness for the amended claim C6 at offset 30 and seconds 59. -/
theorem random_time_within_amended_bound_witness :
    (-30 : Int) ≤ 30 ∧ (30 : Int) ≤ 30 ∧ (59 : Nat) ≤ 59
    ∧ distFrom (calculate_random_time 8 0 30 59) 28800 ≤ 1859 :=
  ⟨by decide, by decide, by decide,
    random_time_within_amended_bound 30 59 (by decide) (by decide) (by decide)⟩

set_option maxHeartbeats 1600000 in
/-- Claim C7: calling `schedule_tasks` twice in succession yields the same
registry as calling it once with the second set of times, holding exactly one
morning and one evening trigger for each of the five business weekdays,
exactly one weekly-regeneration trigger, exactly one midnight self-reschedule
trigger, and 12 registrations in total — the unconditional clear-then-register
never accumulates duplicates, whatever registry earlier calls left. -/
theorem schedule_tasks_idempotent_no_duplicates
    (prev : List Job) (m1 e1 m2 e2 : Nat) :
    schedule_tasks (schedule_tasks prev m1 e1) m2 e2 = schedule_tasks prev m2 e2
    ∧ countJobs (schedule_tasks (schedule_tasks prev m1 e1) m2 e2) DaySpec.monday Task.morning = 1
    ∧ countJobs (schedule_tasks (schedule_tasks prev m1 e1) m2 e2) DaySpec.tuesday Task.morning = 1
    ∧ countJobs (schedule_tasks (schedule_tasks prev m1 e1) m2 e2) DaySpec.wednesday Task.morning = 1
    ∧ countJobs (schedule_tasks (schedule_tasks prev m1 e1) m2 e2) DaySpec.thursday Task.morning = 1
    ∧ countJobs (schedule_tasks (schedule_tasks prev m1 e1) m2 e2) DaySpec.friday Task.morning = 1
    ∧ countJobs (schedule_tasks (schedule_tasks prev m1 e1) m2 e2) DaySpec.monday Task.evening = 1
    ∧ countJobs (schedule_tasks (schedule_tasks prev m1 e1) m2 e2) DaySpec.tuesday Task.evening = 1
    ∧ countJobs (schedule_tasks (schedule_tasks prev m1 e1) m2 e2) DaySpec.wednesday Task.evening = 1
    ∧ countJobs (schedule_tasks (schedule_tasks prev m1 e1) m2 e2) DaySpec.thursday Task.evening = 1
    ∧ countJobs (schedule_tasks (schedule_tasks prev m1 e1) m2 e2) DaySpec.friday Task.evening = 1
    ∧ (schedule_tasks (schedule_tasks prev m1 e1) m2 e2).countP isRegenJob = 1
    ∧ (schedule_tasks (schedule_tasks prev m1 e1) m2 e2).countP isRescheduleJob = 1
    ∧ (schedule_tasks (schedule_tasks prev m1 e1) m2 e2).length = 12 :=
  ⟨rfl, rfl, rfl, rfl, rfl, rfl, rfl, rfl, rfl, rfl, rfl, rfl, rfl, rfl⟩

/-- Claim C8: in the verify-and-retry loop of `select_location` (with the
dropdown, option and reopen interactions succeeding), if the verification read
reports a non-matching location on the first 2 reads and the matching one on
the 3rd, the call returns success with 3 option-click-and-verify attempts; if
no read ever matches, it returns failure after exactly 3 attempts. -/
theorem select_location_retry_behaviour (t : Loc) (reads : Nat → Option Loc) :
    (reads 0 ≠ some t → reads 1 ≠ some t → reads 2 = some t →
      select_location t true allOk allOk reads = (true, 3))
    ∧ ((∀ i, i < 3 → reads i ≠ some t) →
      select_location t true allOk allOk reads = (false, 3)) := by
  constructor
  · intro h0 h1 h2
    rw [select_location_allOk_eval, if_neg h0, if_neg h1, if_pos h2]
  · intro h
    rw [select_location_allOk_eval, if_neg (h 0 (by omega)), if_neg (h 1 (by omega)),
      if_neg (h 2 (by omega))]

/-- Witness for claim C8: a read oracle wrong twice then right succeeds with 3
attempts; an always-wrong oracle fails with 3 attempts. -/
theorem select_location_retry_behaviour_witness :
    select_location Loc.office true allOk allOk
        (fun i => if i = 2 then some Loc.office else some Loc.home) = (true, 3)
    ∧ select_location Loc.office true allOk allOk (fun _ => none) = (false, 3) := by
  constructor
  · exact (select_location_retry_behaviour Loc.office
      (fun i => if i = 2 then some Loc.office else some Loc.home)).1
      (by decide) (by decide) (by decide)
  · exact (select_location_retry_behaviour Loc.office (fun _ => none)).2
      (fun i _ h => Option.noConfusion h)

/-- Claim C9: in every routine execution in which `setup_driver` completed (a
browser handle was opened), `driver.quit()` appears exactly once in the trace,
whatever the outcomes of the later stages and of the screenshot capture. -/
theorem driver_quit_called_exactly_once
    (db : Bool) (e : MorningEnv) (f : EveningEnv) :
    (e.setupOk = true → (morning_routine db e).1.countP isQuit = 1)
    ∧ (f.setupOk = true → (evening_routine db f).1.countP isQuit = 1) := by
  constructor
  · obtain ⟨a, b, c, d, s⟩ := e
    cases db <;> cases a <;> cases b <;> cases c <;> cases d <;> cases s <;> decide
  · obtain ⟨a, b, c, s⟩ := f
    cases db <;> cases a <;> cases b <;> cases c <;> cases s <;> decide

/-- Witness for claim C9: a morning run whose login fails and an evening run
whose stop click fails each quit the opened driver exactly once. -/
theorem driver_quit_called_exactly_once_witness :
    (morning_routine false ⟨true, false, false, false, true⟩).1.countP isQuit = 1
    ∧ (evening_routine false ⟨true, true, false, false⟩).1.countP isQuit = 1 := by
  constructor
  · exact (driver_quit_called_exactly_once false ⟨true, false, false, false, true⟩
      ⟨true, true, false, false⟩).1 rfl
  · exact (driver_quit_called_exactly_once false ⟨true, false, false, false, true⟩
      ⟨true, true, false, false⟩).2 rfl

/-- Claim C10 counterexample: on a stop control that is present on the page
but not interactable — a state in which the clickable wait condition fails —
`click_stop_work` still clicks and returns success, because it waits only for
presence (`EC.presence_of_element_located`), not clickability. -/
theorem click_stop_work_ignores_interactability :
    condMet WaitCond.clickable ⟨true, false⟩ = false
    ∧ click_stop_work ⟨true, false⟩ = (true, true)
    ∧ stopWaitCond = WaitCond.presence := by
  decide

/-- Claim C10 as amended: `click_start_work` waits for the start control to be
clickable, while `click_stop_work` waits only for the stop control to be
present; each clicks exactly when its own wait condition is met within the
timeout and returns failure without clicking otherwise. -/
theorem toggle_clicks_follow_their_wait_conditions
    (s : ElemState) (p q : Option Loc) :
    startWaitCond = WaitCond.clickable
    ∧ stopWaitCond = WaitCond.presence
    ∧ (click_start_work s p q).success = condMet startWaitCond s
    ∧ (click_start_work s p q).clicked = condMet startWaitCond s
    ∧ (click_stop_work s).1 = condMet stopWaitCond s
    ∧ (click_stop_work s).2 = condMet stopWaitCond s := by
  obtain ⟨pr, it⟩ := s
  cases pr <;> cases it <;> exact ⟨rfl, rfl, rfl, rfl, rfl, rfl⟩

end CalClick
